import Mathlib

/-!
Verification of the asynchronous conversion-job engine of the BiddingChecker
backend (`backend/service/convert_service.py` and the part of
`backend/service/file_service.py` it consumes).

The embedding is a shallow one:

* A Python task dict (`self.tasks[task_id]`) becomes the structure `Task`;
  the keys are the structure fields, `None` becomes `Option.none`.
* `FileService.file_records` becomes a function `String → Option FileInfo`
  and `get_file_info` is dictionary lookup, exactly as in the source
  (logging calls are pure side effects on a logger and are dropped).
* `ConvertService.start_convert_task` is embedded with the freshly generated
  `uuid` passed as the `task_id` parameter and the spawned background thread
  represented by the pending record it will operate on; the function returns
  the HTTP outcome together with the task store after the call, so that
  "the store is unchanged on rejection" is an equation.
* `ConvertService._run_convert_task` performs a sequence of single-field
  dictionary assignments on its own record.  It is embedded as the list of
  record states after each of those assignments (`_run_convert_task` below
  returns that write trace); the external collaborators — the
  `pdf_converter.convert_pdf` call and the `open(...).read()` of its output
  file — are inputs (`RunnerEnv`), each either returning a value or raising
  an exception, matching the `except Exception` handler in the source.
  `time.time()` values are abstracted as naturals.  The record is guaranteed
  to exist when the runner starts (it is inserted before the thread is
  spawned and never deleted), so the runner receives the record itself.
* `ConvertService.get_task_status` and `convert_file_to_markdown` are
  embedded directly; the polling loop of the latter observes the shared
  record once per `get_task_status` call, so it is parametrised by the
  sequence `obs : Nat → Task` of record states seen by its successive reads
  (read number 0, 1, … in program order: up to 300 reads inside the loop,
  then one final read).
-/

namespace BiddingChecker

/-- The payload stored in `task['result']` on success
(`convert_service.py` lines 101–108): a dict with six keys. -/
structure ConvertResult where
  file_id : String
  markdown_content : String
  output_path : String
  processing_time : Nat
  pages_processed : Nat
  tables_found : Nat
deriving DecidableEq, Repr

/-- One task record of `ConvertService.tasks` (`convert_service.py`
lines 55–64): keys of the Python dict become fields, `None` becomes
`none`.  The Python status strings are kept verbatim:
"pending", "processing", "completed", "failed". -/
structure Task where
  file_id : String
  file_path : String
  status : String
  progress : Nat
  result : Option ConvertResult
  error : Option String
  start_time : Option Nat
  end_time : Option Nat
deriving DecidableEq, Repr

/-- The record `FileService.save_file` stores in `file_records`
(`file_service.py` lines 72–81). -/
structure FileInfo where
  file_id : String
  original_filename : String
  storage_filename : String
  file_path : String
  file_size : Nat
  file_type : String
  upload_time : String
  status : String
deriving DecidableEq, Repr

/-- A raised `fastapi.HTTPException`: its `status_code` and `detail`. -/
structure HTTPError where
  status_code : Nat
  detail : String
deriving DecidableEq, Repr

/-- The task store `ConvertService.tasks` (a keyed dictionary). -/
abbrev TaskStore := String → Option Task

/-- `FileService.get_file_info` (`file_service.py` lines 108–123):
returns the stored record, or `None` when the id is unknown. -/
def get_file_info (file_records : String → Option FileInfo)
    (file_id : String) : Option FileInfo :=
  file_records file_id

/-- The fresh record inserted by `start_convert_task`
(`convert_service.py` lines 55–64). -/
def initTask (file_id file_path : String) : Task :=
  { file_id := file_id
    file_path := file_path
    status := "pending"
    progress := 0
    result := none
    error := none
    start_time := none
    end_time := none }

/-- `ConvertService.start_convert_task` (`convert_service.py` lines 25–80).
The generated `uuid` is the parameter `task_id`; the return value pairs the
HTTP outcome (task id, or the raised `HTTPException`) with the task store
after the call.  On either rejection the store handed back is the input
store itself: the exception is raised before `self.tasks[task_id]` is
assigned. -/
def start_convert_task (file_records : String → Option FileInfo)
    (tasks : TaskStore) (task_id : String) (file_id : String) :
    Except HTTPError String × TaskStore :=
  match get_file_info file_records file_id with
  | none =>
      (Except.error ⟨404, "文件不存在: " ++ file_id⟩, tasks)
  | some file_info =>
      if file_info.file_type ≠ "pdf" then
        (Except.error ⟨400, "不支持的文件类型: " ++ file_info.file_type
            ++ "，目前只支持PDF文件"⟩, tasks)
      else
        (Except.ok task_id,
          fun id =>
            if id = task_id then some (initTask file_id file_info.file_path)
            else tasks id)

/-- The dict returned by `self.pdf_converter.convert_pdf(file_path)` as the
runner consumes it (`convert_service.py` lines 92–111): `success` via
`result.get('success', False)` (a missing key is `false`), `error` via
`result.get('error', ...)` (an `Option`, defaulted by the runner), and the
keys read on the success path. -/
structure PdfDict where
  success : Bool
  error : Option String
  output_path : String
  processing_time : Nat
  pages_processed : Nat
  tables_found : Nat
deriving DecidableEq, Repr

/-- Outcome of a call into an external collaborator: either it returns a
value or it raises an exception with message `msg` (what `str(e)` yields
in the `except Exception as e` handler). -/
inductive CallOutcome (α : Type) where
  | raises (msg : String)
  | returns (v : α)
deriving DecidableEq, Repr

/-- The environment of one `_run_convert_task` execution: the converter
call's outcome, the outcome of reading the converter's output file, and
the two `time.time()` readings. -/
structure RunnerEnv where
  conv : CallOutcome PdfDict
  readFile : CallOutcome String
  t_start : Nat
  t_end : Nat

/-- `ConvertService._run_convert_task` (`convert_service.py` lines 82–119)
as its write trace: the list of states of the task record after each
single-field assignment the runner performs, in program order.

Success path (converter returns `success=True`, output file read succeeds):
status:='processing', start_time, status:='completed', result,
end_time, progress:=100.
Converter-reported failure (`success` falsy): status:='processing',
start_time, status:='failed', error:=result.get('error','转换失败'),
end_time, progress:=100.
Exception path (converter call or file read raises — caught by the
`except Exception` handler): status:='processing', start_time,
status:='failed', error:=str(e), end_time — and no progress write. -/
def _run_convert_task (env : RunnerEnv) (task0 : Task) : List Task :=
  let s1 := { task0 with status := "processing" }
  let s2 := { s1 with start_time := some env.t_start }
  match env.conv with
  | CallOutcome.raises msg =>
      let e1 := { s2 with status := "failed" }
      let e2 := { e1 with error := some msg }
      let e3 := { e2 with end_time := some env.t_end }
      [s1, s2, e1, e2, e3]
  | CallOutcome.returns r =>
      if r.success then
        match env.readFile with
        | CallOutcome.raises msg =>
            let e1 := { s2 with status := "failed" }
            let e2 := { e1 with error := some msg }
            let e3 := { e2 with end_time := some env.t_end }
            [s1, s2, e1, e2, e3]
        | CallOutcome.returns markdown_content =>
            let s3 := { s2 with status := "completed" }
            let payload : ConvertResult :=
              { file_id := task0.file_id
                markdown_content := markdown_content
                output_path := r.output_path
                processing_time := r.processing_time
                pages_processed := r.pages_processed
                tables_found := r.tables_found }
            let s4 := { s3 with result := some payload }
            let s5 := { s4 with end_time := some env.t_end }
            let s6 := { s5 with progress := 100 }
            [s1, s2, s3, s4, s5, s6]
      else
        let s3 := { s2 with status := "failed" }
        let s4 := { s3 with error := some (r.error.getD "转换失败") }
        let s5 := { s4 with end_time := some env.t_end }
        let s6 := { s5 with progress := 100 }
        [s1, s2, s3, s4, s5, s6]

/-- Placeholder record used only as the default of list indexing. -/
def dummyTask : Task := initTask "" ""

/-- The record when `_run_convert_task` has finished (the last write of its
trace).  The runner is a total function of its inputs: every execution —
including both exception paths — ends in this state, so no fault escapes
the runner. -/
def runnerFinal (env : RunnerEnv) (task0 : Task) : Task :=
  (_run_convert_task env task0).getLastD task0

/-- The single update primitive the source uses on the store: a bare
dictionary field assignment `task['status'] = value`
(`convert_service.py` lines 86, 100, 110, 117).  It applies the requested
value unconditionally; the source has no transition check and no
`InvalidTransition` error. -/
def setStatus (t : Task) (s : String) : Task :=
  { t with status := s }

/-- The dict built and returned by `ConvertService.get_task_status`
(`convert_service.py` lines 139–148). -/
structure TaskView where
  task_id : String
  file_id : String
  status : String
  progress : Nat
  result : Option ConvertResult
  error : Option String
  start_time : Option Nat
  end_time : Option Nat
deriving DecidableEq, Repr

/-- `ConvertService.get_task_status` (`convert_service.py` lines 121–148):
404 when the id is unknown, otherwise a field-by-field copy of the record
as currently stored. -/
def get_task_status (tasks : TaskStore) (task_id : String) :
    Except HTTPError TaskView :=
  match tasks task_id with
  | none => Except.error ⟨404, "任务不存在: " ++ task_id⟩
  | some t =>
      Except.ok
        { task_id := task_id
          file_id := t.file_id
          status := t.status
          progress := t.progress
          result := t.result
          error := t.error
          start_time := t.start_time
          end_time := t.end_time }

/-- Membership test of `convert_file_to_markdown`'s loop:
`task_status['status'] in ['completed', 'failed']`. -/
def isTerminalStatus (s : String) : Bool :=
  s == "completed" || s == "failed"

/-- How a Python f-string renders the value of the always-present `error`
key of the status dict: `None` when unset, the string itself otherwise
(`final_status.get('error', '未知错误')` returns the stored value — `None`
included — because the key always exists, so the default is dead). -/
def pyStrOpt : Option String → String
  | none => "None"
  | some s => s

/-- Index of the first of the loop's `n` status reads that sees a terminal
status (the iteration at which `convert_file_to_markdown`'s polling loop
breaks), if any. -/
def firstTerminalBefore (obs : Nat → Task) (n : Nat) : Option Nat :=
  (List.range n).find? (fun i => isTerminalStatus (obs i).status)

/-- Index of the `final_status = self.get_task_status(task_id)` read in
`convert_file_to_markdown`: if the loop broke at read `i` the final read is
read `i + 1`; if all `max_wait_time = 300` loop reads saw a non-terminal
status, the final read is read number 300. -/
def finalReadIndex (obs : Nat → Task) : Nat :=
  match firstTerminalBefore obs 300 with
  | some i => i + 1
  | none => 300

/-- `ConvertService.convert_file_to_markdown` (`convert_service.py`
lines 150–182) after a successful `start_convert_task`, parametrised by
the sequence of record states its successive `get_task_status` calls
observe.  It polls up to `max_wait_time = 300` times at 1-second cadence,
re-reads the status once more, returns `final_status['result']` if the
status is `'completed'`, and otherwise raises HTTP 500 with the record's
`error` value interpolated into the detail string. -/
def convert_file_to_markdown (obs : Nat → Task) :
    Except HTTPError (Option ConvertResult) :=
  if (obs (finalReadIndex obs)).status = "completed" then
    Except.ok (obs (finalReadIndex obs)).result
  else
    Except.error
      ⟨500, "文件转换失败: " ++ pyStrOpt (obs (finalReadIndex obs)).error⟩

/-- Boolean adjacent-pair chain check: `chainB R l` holds when every two
consecutive elements of `l` satisfy `R`. -/
def chainB {α : Type} (R : α → α → Bool) : List α → Bool
  | [] => true
  | [_] => true
  | a :: b :: t => R a b && chainB R (b :: t)

/-- Boolean pairwise check: every element is related to every later one. -/
def pairwiseB {α : Type} (R : α → α → Bool) : List α → Bool
  | [] => true
  | a :: t => t.all (R a) && pairwiseB R t

/-- Number of adjacent `"pending" → "processing"` steps in a status list. -/
def countPendingToProcessing : List String → Nat
  | a :: b :: t =>
      (if a = "pending" ∧ b = "processing" then 1 else 0)
        + countPendingToProcessing (b :: t)
  | _ => 0

/-- The allowed edges of the job state machine, reflexive steps included
(a write that leaves the status unchanged is not a transition):
Pending → Running, Running → Completed, Running → Failed. -/
def allowedStepB (a b : String) : Bool :=
  a == b
    || (a == "pending" && b == "processing")
    || (a == "processing" && (b == "completed" || b == "failed"))

/-- The status of the record before the runner starts followed by the
status after each runner write. -/
def statusTrace (env : RunnerEnv) (fid fp : String) : List String :=
  (initTask fid fp).status
    :: (_run_convert_task env (initTask fid fp)).map Task.status

/-- Concrete converter outcome for the success-path fixtures. -/
def pdfOk : PdfDict :=
  { success := true
    error := none
    output_path := "uploads/out.md"
    processing_time := 3
    pages_processed := 5
    tables_found := 2 }

/-- Concrete environment: converter succeeds, output file reads back. -/
def envOk : RunnerEnv :=
  { conv := CallOutcome.returns pdfOk
    readFile := CallOutcome.returns "md body"
    t_start := 10
    t_end := 20 }

/-- Concrete pending record the fixtures run on. -/
def task0C : Task := initTask "f1" "uploads/f1.pdf"

/-! ## Theorems -/

/-- Claim C7: whenever the converter invocation reports success and the
output-file read succeeds, the runner's final record has `result` set to
the payload-derived value, `progress = 100` and status `'completed'`
(with `start_time`/`end_time` stamped and `error` unset). -/
theorem runner_success_final (err : Option String)
    (op md fid fp : String) (pt pp tf t1 t2 : Nat) :
    runnerFinal
      { conv := CallOutcome.returns
          { success := true, error := err, output_path := op
            processing_time := pt, pages_processed := pp, tables_found := tf }
        readFile := CallOutcome.returns md
        t_start := t1, t_end := t2 }
      (initTask fid fp)
      = { file_id := fid, file_path := fp, status := "completed"
          progress := 100
          result := some
            { file_id := fid, markdown_content := md, output_path := op
              processing_time := pt, pages_processed := pp
              tables_found := tf }
          error := none, start_time := some t1, end_time := some t2 } :=
  rfl

/-- Claim C8: every fault raised inside the runner — whether the converter
call raises, or the converter succeeds and the output-file read raises —
is caught at the runner boundary and turned into a terminal `'failed'`
record whose `error` field carries the fault's message (`str(e)`); the
trace is a total function of its inputs, so the fault never escapes the
runner's thread. -/
theorem runner_fault_caught (msg : String) (rf : CallOutcome String)
    (err : Option String) (op fid fp : String) (pt pp tf t1 t2 : Nat) :
    (runnerFinal
        { conv := CallOutcome.raises msg, readFile := rf
          t_start := t1, t_end := t2 }
        (initTask fid fp)
      = { file_id := fid, file_path := fp, status := "failed"
          progress := 0, result := none, error := some msg
          start_time := some t1, end_time := some t2 })
    ∧ (runnerFinal
        { conv := CallOutcome.returns
            { success := true, error := err, output_path := op
              processing_time := pt, pages_processed := pp
              tables_found := tf }
          readFile := CallOutcome.raises msg
          t_start := t1, t_end := t2 }
        (initTask fid fp)
      = { file_id := fid, file_path := fp, status := "failed"
          progress := 0, result := none, error := some msg
          start_time := some t1, end_time := some t2 }) :=
  ⟨rfl, rfl⟩

/-- Claim C10: the final progress of a failed job depends on how it failed.
When the converter returns an unsuccessful outcome (`success = False`) the
runner still sets `progress = 100` on the `'failed'` record; when the
failure is a caught exception (converter raises), progress stays at the
record's initial value 0 — so a failed job is observable with progress
100 or with progress 0. -/
theorem runner_failed_progress (err : Option String) (rf : CallOutcome String)
    (op msg fid fp : String) (pt pp tf t1 t2 : Nat) :
    (runnerFinal
        { conv := CallOutcome.returns
            { success := false, error := err, output_path := op
              processing_time := pt, pages_processed := pp
              tables_found := tf }
          readFile := rf, t_start := t1, t_end := t2 }
        (initTask fid fp)
      = { file_id := fid, file_path := fp, status := "failed"
          progress := 100, result := none
          error := some (err.getD "转换失败")
          start_time := some t1, end_time := some t2 })
    ∧ ((runnerFinal
          { conv := CallOutcome.raises msg, readFile := rf
            t_start := t1, t_end := t2 }
          (initTask fid fp)).progress = 0
        ∧ (runnerFinal
            { conv := CallOutcome.raises msg, readFile := rf
              t_start := t1, t_end := t2 }
            (initTask fid fp)).status = "failed") :=
  ⟨rfl, rfl, rfl⟩

/-- Claim C6: the record is created `'pending'`; along the runner's write
trace the status only moves along the allowed edges
Pending → Running (`'processing'`) → Completed | Failed, the
Pending → Running transition happens exactly once, and once the status is
terminal no later runner write ever changes it. -/
theorem runner_state_machine (env : RunnerEnv) (fid fp : String) :
    (initTask fid fp).status = "pending"
    ∧ chainB allowedStepB (statusTrace env fid fp) = true
    ∧ countPendingToProcessing (statusTrace env fid fp) = 1
    ∧ pairwiseB (fun a b => !isTerminalStatus a || (b == a))
        (statusTrace env fid fp) = true := by
  obtain ⟨conv, rf, t1, t2⟩ := env
  cases conv with
  | raises msg => exact ⟨rfl, rfl, rfl, rfl⟩
  | returns r =>
    obtain ⟨succ, err, op, pt, pp, tf⟩ := r
    cases succ with
    | false => exact ⟨rfl, rfl, rfl, rfl⟩
    | true =>
      cases rf with
      | raises m => exact ⟨rfl, rfl, rfl, rfl⟩
      | returns md => exact ⟨rfl, rfl, rfl, rfl⟩

/-- Claim C4 counterexample: the code's store update is a bare dictionary
assignment with no transition check: applying the forbidden edge
Completed → Pending to a genuinely completed record (the final record of a
successful run) simply succeeds and yields status `'pending'` — nothing
rejects it, and no InvalidTransition error exists anywhere in the code. -/
theorem update_unchecked_counterexample :
    (runnerFinal envOk task0C).status = "completed"
    ∧ (setStatus (runnerFinal envOk task0C) "pending").status = "pending" :=
  ⟨rfl, rfl⟩

/-- Claim C4 (amended): the store's update primitive applies any requested
status value unconditionally — it verifies nothing and can express no
InvalidTransition rejection (its type returns the updated record, never an
error); the state-machine edges are respected only because the runner's
own control flow happens to follow them. -/
theorem update_unchecked (t : Task) (s : String) (env : RunnerEnv)
    (fid fp : String) :
    ((setStatus t s).status = s
      ∧ (setStatus t s).result = t.result
      ∧ (setStatus t s).error = t.error
      ∧ (setStatus t s).progress = t.progress)
    ∧ chainB allowedStepB (statusTrace env fid fp) = true := by
  refine ⟨⟨rfl, rfl, rfl, rfl⟩, ?_⟩
  obtain ⟨conv, rf, t1, t2⟩ := env
  cases conv with
  | raises msg => rfl
  | returns r =>
    obtain ⟨succ, err, op, pt, pp, tf⟩ := r
    cases succ with
    | false => rfl
    | true =>
      cases rf with
      | raises m => rfl
      | returns md => rfl

/-- Claim C3 counterexample: in a successful run the write at trace index 2
makes the status terminal (`'completed'`) while progress is still 0, and
the later write at index 5 changes progress from 0 to 100 — a runner step
changes the progress field after the status has become terminal. -/
theorem progress_written_after_terminal :
    ((_run_convert_task envOk task0C).getD 2 dummyTask).status = "completed"
    ∧ ((_run_convert_task envOk task0C).getD 2 dummyTask).progress = 0
    ∧ ((_run_convert_task envOk task0C).getD 4 dummyTask).status = "completed"
    ∧ ((_run_convert_task envOk task0C).getD 4 dummyTask).progress = 0
    ∧ ((_run_convert_task envOk task0C).getD 5 dummyTask).status = "completed"
    ∧ ((_run_convert_task envOk task0C).getD 5 dummyTask).progress = 100 :=
  ⟨rfl, rfl, rfl, rfl, rfl, rfl⟩

/-- Claim C3 (amended): the progress field is monotonically non-decreasing
across all of the runner's successive writes (every value is 0 or 100 and
it never steps down), but its single write to 100 occurs after the status
has already become terminal on the converter-outcome paths (and never
happens on the exception path). -/
theorem progress_monotone (env : RunnerEnv) (fid fp : String) :
    chainB (fun a b => Nat.ble a b)
      ((initTask fid fp).progress
        :: (_run_convert_task env (initTask fid fp)).map Task.progress) = true
    ∧ ((_run_convert_task env (initTask fid fp)).map Task.progress).all
        (fun p => p == 0 || p == 100) = true := by
  obtain ⟨conv, rf, t1, t2⟩ := env
  cases conv with
  | raises msg => exact ⟨rfl, rfl⟩
  | returns r =>
    obtain ⟨succ, err, op, pt, pp, tf⟩ := r
    cases succ with
    | false => exact ⟨rfl, rfl⟩
    | true =>
      cases rf with
      | raises m => exact ⟨rfl, rfl⟩
      | returns md => exact ⟨rfl, rfl⟩

/-- Claim C5 counterexample: at the point of a successful run where the
write at trace index 2 has just happened, the status is already terminal
(`'completed'`) yet both the result field and the error field are still
empty — refuting "exactly one of result/error is non-empty whenever the
status is terminal, at every point of the runner's execution". -/
theorem terminal_fields_counterexample :
    ((_run_convert_task envOk task0C).getD 2 dummyTask).status = "completed"
    ∧ ((_run_convert_task envOk task0C).getD 2 dummyTask).result = none
    ∧ ((_run_convert_task envOk task0C).getD 2 dummyTask).error = none :=
  ⟨rfl, rfl, rfl⟩

/-- Claim C5 (amended): while the status is non-terminal both result and
error are empty at every point of the runner's execution, and at the
runner's final state the status is terminal with exactly one of the two
fields set (result iff completed, error iff failed); transiently, however,
the write trace passes through one state per path where the status is
already terminal but neither field has been written yet. -/
theorem terminal_fields_invariant (env : RunnerEnv) (fid fp : String) :
    ((_run_convert_task env (initTask fid fp)).all
      (fun s => isTerminalStatus s.status
        || (s.result.isNone && s.error.isNone)) = true)
    ∧ isTerminalStatus (runnerFinal env (initTask fid fp)).status = true
    ∧ (runnerFinal env (initTask fid fp)).result.isSome
        = ((runnerFinal env (initTask fid fp)).status == "completed")
    ∧ (runnerFinal env (initTask fid fp)).error.isSome
        = ((runnerFinal env (initTask fid fp)).status == "failed") := by
  obtain ⟨conv, rf, t1, t2⟩ := env
  cases conv with
  | raises msg => exact ⟨rfl, rfl, rfl, rfl⟩
  | returns r =>
    obtain ⟨succ, err, op, pt, pp, tf⟩ := r
    cases succ with
    | false => exact ⟨rfl, rfl, rfl, rfl⟩
    | true =>
      cases rf with
      | raises m => exact ⟨rfl, rfl, rfl, rfl⟩
      | returns md => exact ⟨rfl, rfl, rfl, rfl⟩

/-- A store holding, under id "t1", the record exactly as it stands after
the third write of a successful run — the torn state with terminal status
but none of result, progress and end_time written yet. -/
def tornStore : TaskStore :=
  fun id =>
    if id = "t1" then some ((_run_convert_task envOk task0C).getD 2 dummyTask)
    else none

/-- Claim C9 counterexample: a read served between the runner's writes
returns a torn record.  The state after write 2 of a successful run is a
reachable store state (it is on the write trace); `get_task_status` served
on it returns status `'completed'` with `result = None`, `progress = 0`
and `end_time = None` — neither the pre-transition record (whose status is
`'processing'`) nor the fully post-transition one (which it differs
from). -/
theorem torn_read_counterexample :
    (_run_convert_task envOk task0C).getD 2 dummyTask
        ∈ _run_convert_task envOk task0C
    ∧ get_task_status tornStore "t1"
        = Except.ok
          { task_id := "t1", file_id := "f1", status := "completed"
            progress := 0, result := none, error := none
            start_time := some 10, end_time := none }
    ∧ (_run_convert_task envOk task0C).getD 2 dummyTask
        ≠ runnerFinal envOk task0C := by
  refine ⟨by decide, rfl, by decide⟩

/-- Claim C9 (amended): `get_task_status` performs no synchronization: it
returns a field-by-field copy of whatever state the store currently holds.
Because the runner's terminal transition is several separate field writes,
every execution's write trace contains a state whose status is already
terminal but which differs from the final record — a reader polling
between those writes observes a partially-updated (torn) record; only
after the runner's last write is the snapshot fully post-transition. -/
theorem torn_read_possible (env : RunnerEnv) (fid fp tid : String) :
    (∀ t : Task,
      get_task_status (fun id => if id = tid then some t else none) tid
        = Except.ok
          { task_id := tid, file_id := t.file_id, status := t.status
            progress := t.progress, result := t.result, error := t.error
            start_time := t.start_time, end_time := t.end_time })
    ∧ runnerFinal env (initTask fid fp) ∈ _run_convert_task env (initTask fid fp)
    ∧ ∃ s : Task, s ∈ _run_convert_task env (initTask fid fp)
        ∧ isTerminalStatus s.status = true
        ∧ s ≠ runnerFinal env (initTask fid fp) := by
  refine ⟨fun t => by simp [get_task_status], ?_⟩
  obtain ⟨conv, rf, t1, t2⟩ := env
  cases conv with
  | raises msg =>
    refine ⟨?_, (_run_convert_task ⟨CallOutcome.raises msg, rf, t1, t2⟩
        (initTask fid fp)).getD 2 dummyTask, ?_, rfl, ?_⟩
    · exact List.Mem.tail _ (List.Mem.tail _ (List.Mem.tail _
        (List.Mem.tail _ (List.Mem.head _))))
    · exact List.Mem.tail _ (List.Mem.tail _ (List.Mem.head _))
    · exact fun h => Option.noConfusion (congrArg Task.error h)
  | returns r =>
    obtain ⟨succ, err, op, pt, pp, tf⟩ := r
    cases succ with
    | false =>
      refine ⟨?_, (_run_convert_task
          ⟨CallOutcome.returns ⟨false, err, op, pt, pp, tf⟩, rf, t1, t2⟩
          (initTask fid fp)).getD 2 dummyTask, ?_, rfl, ?_⟩
      · exact List.Mem.tail _ (List.Mem.tail _ (List.Mem.tail _
          (List.Mem.tail _ (List.Mem.tail _ (List.Mem.head _)))))
      · exact List.Mem.tail _ (List.Mem.tail _ (List.Mem.head _))
      · exact fun h => Option.noConfusion (congrArg Task.error h)
    | true =>
      cases rf with
      | raises m =>
        refine ⟨?_, (_run_convert_task
            ⟨CallOutcome.returns ⟨true, err, op, pt, pp, tf⟩,
              CallOutcome.raises m, t1, t2⟩
            (initTask fid fp)).getD 2 dummyTask, ?_, rfl, ?_⟩
        · exact List.Mem.tail _ (List.Mem.tail _ (List.Mem.tail _
            (List.Mem.tail _ (List.Mem.head _))))
        · exact List.Mem.tail _ (List.Mem.tail _ (List.Mem.head _))
        · exact fun h => Option.noConfusion (congrArg Task.error h)
      | returns md =>
        refine ⟨?_, (_run_convert_task
            ⟨CallOutcome.returns ⟨true, err, op, pt, pp, tf⟩,
              CallOutcome.returns md, t1, t2⟩
            (initTask fid fp)).getD 2 dummyTask, ?_, rfl, ?_⟩
        · exact List.Mem.tail _ (List.Mem.tail _ (List.Mem.tail _
            (List.Mem.tail _ (List.Mem.tail _ (List.Mem.head _)))))
        · exact List.Mem.tail _ (List.Mem.tail _ (List.Mem.head _))
        · exact fun h => Option.noConfusion (congrArg Task.result h)

/-- Claim C2: a submission whose file id the FileService cannot resolve is
rejected synchronously with HTTP 404, and one whose resolved file type is
not `'pdf'` is rejected synchronously with HTTP 400; in both cases the
rejection happens before the task record would be created, so the task
store handed back is exactly the input store — it has no entry for the
rejected submission. -/
theorem submit_rejected_synchronously (file_records : String → Option FileInfo)
    (tasks : TaskStore) (task_id file_id : String) :
    (get_file_info file_records file_id = none →
      start_convert_task file_records tasks task_id file_id
        = (Except.error ⟨404, "文件不存在: " ++ file_id⟩, tasks))
    ∧ (∀ fi : FileInfo, get_file_info file_records file_id = some fi →
        fi.file_type ≠ "pdf" →
        start_convert_task file_records tasks task_id file_id
          = (Except.error ⟨400, "不支持的文件类型: " ++ fi.file_type
              ++ "，目前只支持PDF文件"⟩, tasks)) := by
  constructor
  · intro h
    simp only [start_convert_task, h]
  · intro fi h hne
    simp only [start_convert_task, h, if_pos hne]

/-- Witness for claim C2's theorem at concrete inputs: an empty file store
rejects submission "f1" with 404 leaving an empty task store untouched,
and a store resolving "f2" to a spreadsheet rejects it with 400. -/
theorem submit_rejected_synchronously_witness :
    start_convert_task (fun _ => none) (fun _ => none) "t1" "f1"
      = (Except.error ⟨404, "文件不存在: f1"⟩, fun _ => none)
    ∧ start_convert_task
        (fun id => if id = "f2" then some
          { file_id := "f2", original_filename := "a.xlsx"
            storage_filename := "f2.xlsx", file_path := "uploads/f2.xlsx"
            file_size := 9, file_type := "spreadsheet"
            upload_time := "2026-01-01T00:00:00", status := "uploaded" }
          else none)
        (fun _ => none) "t2" "f2"
      = (Except.error ⟨400,
          "不支持的文件类型: spreadsheet，目前只支持PDF文件"⟩, fun _ => none) :=
  ⟨(submit_rejected_synchronously (fun _ => none) (fun _ => none) "t1" "f1").1
      rfl,
    (submit_rejected_synchronously _ (fun _ => none) "t2" "f2").2
      { file_id := "f2", original_filename := "a.xlsx"
        storage_filename := "f2.xlsx", file_path := "uploads/f2.xlsx"
        file_size := 9, file_type := "spreadsheet"
        upload_time := "2026-01-01T00:00:00", status := "uploaded" }
      rfl (by decide)⟩

/-- Observation sequence of a wait whose job is already completed: every
read sees the final record of a successful run. -/
def obsDone : Nat → Task := fun _ => runnerFinal envOk task0C

/-- Observation sequence of a wait on a job that never terminates within
the deadline: every read sees the record still `'processing'`. -/
def obsStuck : Nat → Task :=
  fun _ => { task0C with status := "processing", start_time := some 10 }

/-- Observation sequence of a wait on a job that failed with the recorded
error message "None" (a perfectly legal `str(e)` value). -/
def obsFailedNone : Nat → Task :=
  fun _ => { task0C with
             status := "failed"
             error := some "None"
             start_time := some 10
             end_time := some 20 }

/-- Claim C1 (amended): for a submitted job, the synchronous wait returns
the recorded result when a poll within the 300-read deadline sees status
`'completed'`, and raises HTTP 500 carrying the recorded error when it
sees `'failed'`; but when the deadline elapses with the status still
non-terminal it raises the same generic HTTP 500 conversion-failure error,
whose detail interpolates the record's unset error field (rendered `None`)
— there is no distinct Timeout error.  `hstable` states that a record seen
terminal at one read is unchanged at the next (the runner never rewrites a
terminal record, so the re-read after the loop breaks sees the same
record). -/
theorem run_and_wait_behavior (obs : Nat → Task)
    (hstable : ∀ i, isTerminalStatus (obs i).status = true →
      obs (i + 1) = obs i) :
    (∀ i, firstTerminalBefore obs 300 = some i →
      (obs i).status = "completed" →
      convert_file_to_markdown obs = Except.ok (obs i).result)
    ∧ (∀ i, firstTerminalBefore obs 300 = some i →
        (obs i).status = "failed" →
        convert_file_to_markdown obs
          = Except.error ⟨500, "文件转换失败: " ++ pyStrOpt (obs i).error⟩)
    ∧ (firstTerminalBefore obs 300 = none →
        isTerminalStatus (obs 300).status = false →
        convert_file_to_markdown obs
          = Except.error ⟨500, "文件转换失败: " ++ pyStrOpt (obs 300).error⟩) := by
  refine ⟨?_, ?_, ?_⟩
  · intro i hfind hcomp
    have hfind2 : (List.range 300).find?
        (fun j => isTerminalStatus (obs j).status) = some i := hfind
    have hterm0 := List.find?_some hfind2
    have hterm : isTerminalStatus (obs i).status = true := hterm0
    have hnext : obs (i + 1) = obs i := hstable i hterm
    have hidx : finalReadIndex obs = i + 1 := by
      simp only [finalReadIndex, hfind]
    simp only [convert_file_to_markdown, hidx, hnext, hcomp]
    simp
  · intro i hfind hfail
    have hfind2 : (List.range 300).find?
        (fun j => isTerminalStatus (obs j).status) = some i := hfind
    have hterm0 := List.find?_some hfind2
    have hterm : isTerminalStatus (obs i).status = true := hterm0
    have hnext : obs (i + 1) = obs i := hstable i hterm
    have hidx : finalReadIndex obs = i + 1 := by
      simp only [finalReadIndex, hfind]
    simp only [convert_file_to_markdown, hidx, hnext, hfail]
    rw [if_neg (by decide)]
  · intro hnone hnt
    have hidx : finalReadIndex obs = 300 := by
      simp only [finalReadIndex, hnone]
    have hne : (obs 300).status ≠ "completed" := by
      intro he
      rw [he] at hnt
      exact absurd hnt (by decide)
    simp only [convert_file_to_markdown, hidx]
    rw [if_neg hne]

set_option maxRecDepth 4096 in
/-- Witness for claim C1's theorem: waiting on an already-completed job
(the final record of the concrete successful run) returns the recorded
result. -/
theorem run_and_wait_behavior_witness :
    convert_file_to_markdown obsDone
      = Except.ok (some
          { file_id := "f1", markdown_content := "md body"
            output_path := "uploads/out.md", processing_time := 3
            pages_processed := 5, tables_found := 2 }) :=
  (run_and_wait_behavior obsDone (fun _ _ => rfl)).1 0 rfl rfl

set_option maxRecDepth 4096 in
/-- Claim C1 counterexample: when the deadline elapses with the job still
`'processing'`, the wait does not fail with a distinct Timeout error — it
raises the very same HTTP 500 conversion-failure error as a job that
failed with recorded error message "None": the two outcomes are equal, so
the timeout is indistinguishable from a recorded failure. -/
theorem timeout_not_distinct :
    isTerminalStatus (obsStuck 300).status = false
    ∧ firstTerminalBefore obsStuck 300 = none
    ∧ convert_file_to_markdown obsStuck
        = Except.error ⟨500, "文件转换失败: None"⟩
    ∧ convert_file_to_markdown obsFailedNone
        = Except.error ⟨500, "文件转换失败: None"⟩
    ∧ convert_file_to_markdown obsStuck
        = convert_file_to_markdown obsFailedNone := by
  refine ⟨rfl, ?_, ?_, rfl, ?_⟩
  · rfl
  · rfl
  · rfl

end BiddingChecker
